import Mathlib

/-!
# Link Safety Checker — verification of the risk-assessment core

A shallow embedding, in Lean, of the decision logic of the
Link-Safety-Checker repository (`src/risk_scorer.py`, `src/response_parser.py`,
`src/score_combiner.py`, `src/url_analyzer.py`, `src/api_client.py`), together
with theorems settling the specification claims about that logic.

Conventions of the embedding:
* Python strings are Lean `String`s; `needle in haystack` is `pyIn`,
  `str.lower()` is `String.toLower` (the URLs and keywords involved are ASCII,
  where the two agree).
* Python dictionaries returned by the checks become structures with the same
  field names.
* A Python function that can raise is embedded with `Except Unit` on the
  raising fragment; a `try/except` around it becomes a `match`.
* Real-time data (the `timestamp` fields) is not modelled: no claim mentions
  it and it is the only non-deterministic part of the core.
* The network call `check_url_safety` is modelled by its outcome: the caller
  `analyze_url_complete` receives either a parsed-response payload or a
  `SafeBrowsingAPIError`, exactly the two ways the call can end in the source.
-/

namespace LinkSafety

/-! ## Python string primitives -/

/-- Model of Python `needle in haystack` on lists of characters:
some suffix of the haystack starts with the needle. -/
def containsSub (needle : List Char) : List Char → Bool
  | [] => needle.isEmpty
  | c :: t => needle.isPrefixOf (c :: t) || containsSub needle t

/-- Model of Python `needle in haystack` for strings. -/
def pyIn (needle hay : String) : Bool :=
  containsSub needle.toList hay.toList

/-- Model of Python `s.endswith(suf)`. -/
def pyEndsWith (s suf : String) : Bool :=
  suf.toList.isSuffixOf s.toList

/-- Model of Python `s.lower()` on the ASCII strings involved here. -/
def pyLower (s : String) : String :=
  String.mk (s.toList.map Char.toLower)

/-- Model of Python `s.split(c)` for a one-character separator: splits at
every occurrence, keeping empty pieces. -/
def splitOnChar (c : Char) : List Char → List (List Char)
  | [] => [[]]
  | a :: t =>
      if a = c then [] :: splitOnChar c t
      else
        match splitOnChar c t with
        | h :: r => (a :: h) :: r
        | [] => [[a]]

/-- Model of Python `s.split("::")`: split at each leftmost non-overlapping
occurrence of a double colon. -/
def splitDoubleColon : List Char → List (List Char)
  | [] => [[]]
  | ':' :: ':' :: t => [] :: splitDoubleColon t
  | a :: t =>
      match splitDoubleColon t with
      | h :: r => (a :: h) :: r
      | [] => [[a]]

/-! ## `risk_scorer.py` — keyword check (the only check that needs no URL
parsing: it works on the raw lowercased URL string) -/

/-- `SUSPICIOUS_KEYWORDS` from `src/risk_scorer.py` lines 8–12, verbatim;
note that the source list contains the entry 'verify' twice. -/
def SUSPICIOUS_KEYWORDS : List String :=
  ["secure", "verify", "update", "account", "login", "signin", "bank",
   "paypal", "confirm", "password", "billing", "credit", "card", "security",
   "suspended", "verify", "authenticate", "wallet", "tax", "refund"]

/-- The `found_keywords` accumulation loop of `detect_suspicious_keywords`:
one entry appended per element of `SUSPICIOUS_KEYWORDS` contained in the
lowercased URL (so a duplicated list entry is appended twice). -/
def found_keywords (url : String) : List String :=
  SUSPICIOUS_KEYWORDS.filter (fun keyword => pyIn keyword (pyLower url))

/-- Outcome of one scoring check: the `{"score": ..., "reason": ...}` dict. -/
structure CheckResult where
  score : Nat
  reason : String
  deriving Repr, DecidableEq

/-- `detect_suspicious_keywords` from `src/risk_scorer.py` lines 96–134. -/
def detect_suspicious_keywords (url : String) : CheckResult :=
  let found := found_keywords url
  let keyword_count := found.length
  if keyword_count = 0 then
    { score := 0, reason := "No suspicious keywords detected" }
  else if keyword_count ≤ 2 then
    { score := 15,
      reason := "Contains suspicious keywords: " ++ String.intercalate ", " found }
  else
    { score := 30,
      reason := "Contains multiple suspicious keywords: "
        ++ String.intercalate ", " (found.take 5) }

/-! ## Model of `urllib.parse.urlsplit` (the fragment the scorer uses)

The scorer reads only `parsed.hostname`, `parsed.port` and `parsed.netloc`
of the result of `urlparse(url)`.  We model CPython's `urlsplit` for those
accessors on ASCII input: unsafe bytes (tab/CR/LF) are removed, an optional
scheme is split off, a netloc is taken after a leading `//` up to the first
`/`, `?` or `#`, with the IPv6-bracket sanity check that makes `urlsplit`
raise `ValueError` (modelled as `Except.error ()`). -/

def scheme_chars : List Char :=
  ("abcdefghijklmnopqrstuvwxyzABCDEFGHIJKLMNOPQRSTUVWXYZ0123456789+-.").toList

/-- The netloc of `urlsplit(url)`, or a `ValueError` for a bracket-mismatched
netloc.  For a URL with no `//` authority the netloc is empty. -/
def pyUrlsplitNetloc (url : String) : Except Unit (List Char) :=
  let cs := url.toList.filter (fun c => ¬ (c = '\t' ∨ c = '\r' ∨ c = '\n'))
  let rest :=
    match cs.findIdx? (fun c => c = ':') with
    | some i =>
        if 0 < i ∧ (cs.headD ' ').isAlpha ∧ (cs.take i).all (fun c => c ∈ scheme_chars)
        then cs.drop (i + 1)
        else cs
    | none => cs
  if rest.take 2 = ['/', '/'] then
    let body := rest.drop 2
    let delim := body.findIdx (fun c => c = '/' ∨ c = '?' ∨ c = '#')
    let netloc := body.take delim
    if ('[' ∈ netloc ∧ ']' ∉ netloc) ∨ (']' ∈ netloc ∧ '[' ∉ netloc)
    then Except.error ()
    else Except.ok netloc
  else Except.ok []

/-- CPython `SplitResult._hostinfo`: strip the userinfo after the last `@`,
then split host and port string, honouring an IPv6 bracket. -/
def pyHostinfo (netloc : List Char) : List Char × Option (List Char) :=
  let hostinfo := (netloc.reverse.takeWhile (fun c => c ≠ '@')).reverse
  let (host, portStr) :=
    if '[' ∈ hostinfo then
      let bracketed := (hostinfo.dropWhile (fun c => c ≠ '[')).drop 1
      let host := bracketed.takeWhile (fun c => c ≠ ']')
      let after := (bracketed.dropWhile (fun c => c ≠ ']')).drop 1
      (host, (after.dropWhile (fun c => c ≠ ':')).drop 1)
    else
      (hostinfo.takeWhile (fun c => c ≠ ':'),
       (hostinfo.dropWhile (fun c => c ≠ ':')).drop 1)
  (host, if portStr = [] then none else some portStr)

/-- CPython `SplitResult.hostname`: the hostinfo host lowercased, `None` when
empty. -/
def pyHostname (netloc : List Char) : Option String :=
  let host := (pyHostinfo netloc).1
  if host = [] then none else some (String.mk (host.map Char.toLower))

/-- Model of Python `int(s, 10)` restricted to an optional sign followed by
decimal digits (no whitespace or underscores, which cannot appear in a
netloc port anyway). -/
def pyParseInt (s : List Char) : Option Int :=
  let (sign, digits) : Int × List Char :=
    match s with
    | '+' :: t => (1, t)
    | '-' :: t => (-1, t)
    | t => (1, t)
  if digits ≠ [] ∧ digits.all Char.isDigit then
    some (sign * (digits.foldl (fun n c => n * 10 + (c.toNat - 48)) 0 : Nat))
  else none

/-- CPython `SplitResult.port`: parse the port string as an integer in
`[0, 65535]`, raising `ValueError` (our `Except.error ()`) otherwise. -/
def pyPort (netloc : List Char) : Except Unit (Option Nat) :=
  match (pyHostinfo netloc).2 with
  | none => Except.ok none
  | some p =>
      match pyParseInt p with
      | none => Except.error ()
      | some v => if 0 ≤ v ∧ v ≤ 65535 then Except.ok (some v.toNat) else Except.error ()

/-! ## Model of `ipaddress.ip_address` validation

`ip_address(host)` succeeds exactly on a valid IPv4 dotted quad or a valid
IPv6 address string.  The dotted-quad grammar is modelled in full (four
decimal parts, each ≤ 255, at most three digits, no leading zeros); the IPv6
grammar covers hex groups, one `::` compression and an embedded trailing
IPv4, which is the grammar `ipaddress` accepts for unscoped addresses. -/

def isHexDigitChar (c : Char) : Bool :=
  c.isDigit ∨ ('a' ≤ c ∧ c ≤ 'f') ∨ ('A' ≤ c ∧ c ≤ 'F')

def decimalValue (s : List Char) : Nat :=
  s.foldl (fun n c => n * 10 + (c.toNat - 48)) 0

/-- One IPv4 octet: 1–3 decimal digits, value ≤ 255, no leading zero. -/
def isIPv4Octet (s : List Char) : Bool :=
  s ≠ [] ∧ s.length ≤ 3 ∧ s.all Char.isDigit ∧
    (s.length = 1 ∨ s.headD '0' ≠ '0') ∧ decimalValue s ≤ 255

def isIPv4 (s : List Char) : Bool :=
  let parts := splitOnChar '.' s
  parts.length = 4 ∧ parts.all isIPv4Octet

/-- One IPv6 hextet: 1–4 hex digits. -/
def isIPv6Group (g : List Char) : Bool :=
  g ≠ [] ∧ g.length ≤ 4 ∧ g.all isHexDigitChar

/-- Number of 16-bit groups contributed by the colon-separated parts of one
side of a `::`, allowing a trailing embedded IPv4 (worth two groups);
`none` when some part is not well-formed. -/
def ipv6SideGroups (side : List Char) (ipv4Allowed : Bool) : Option Nat :=
  if side = [] then some 0 else
  let parts := splitOnChar ':' side
  match parts.getLast? with
  | none => some 0
  | some lastPart =>
      let initOk := (parts.dropLast).all isIPv6Group
      if ¬ initOk then none
      else if '.' ∈ lastPart then
        if ipv4Allowed ∧ isIPv4 lastPart then some (parts.length + 1) else none
      else if isIPv6Group lastPart then some parts.length
      else none

def isIPv6 (s : List Char) : Bool :=
  match splitDoubleColon s with
  | [whole] =>
      match ipv6SideGroups whole true with
      | some n => s ≠ [] ∧ n = 8
      | none => false
  | [l, r] =>
      match ipv6SideGroups l false, ipv6SideGroups r true with
      | some nl, some nr => nl + nr ≤ 7
      | _, _ => false
  | _ => false

/-- Model of `ipaddress.ip_address(host)` succeeding. -/
def is_ip_address (host : String) : Bool :=
  isIPv4 host.toList ∨ isIPv6 host.toList

/-! ## `risk_scorer.py` — the remaining four checks and the total -/

/-- `analyze_url_length` from `src/risk_scorer.py` lines 20–51. -/
def analyze_url_length (url : String) : CheckResult :=
  let length := url.length
  if length ≤ 200 then
    { score := 0, reason := "URL length is normal (" ++ toString length ++ " characters)" }
  else if length ≤ 500 then
    { score := 20, reason := "URL is suspiciously long (" ++ toString length ++ " characters)" }
  else
    { score := 40,
      reason := "URL is extremely long (" ++ toString length
        ++ " characters), typical of obfuscated phishing URLs" }

/-- Python `parsed.hostname or parsed.netloc.split(':')[0]` from the checks:
the hostname property when truthy, else everything in the netloc before the
first colon. -/
def scorerHostname (netloc : List Char) : String :=
  match pyHostname netloc with
  | some h => h
  | none => String.mk (netloc.takeWhile (fun c => c ≠ ':'))

/-- `check_ip_address` from `src/risk_scorer.py` lines 54–93. -/
def check_ip_address (url : String) : CheckResult :=
  match pyUrlsplitNetloc url with
  | Except.error _ => { score := 0, reason := "Could not parse URL" }
  | Except.ok netloc =>
      let hostname := scorerHostname netloc
      if hostname = "" then
        { score := 0, reason := "Could not determine hostname" }
      else if is_ip_address hostname then
        { score := 30,
          reason := "URL uses IP address (" ++ hostname ++ ") instead of domain name" }
      else
        { score := 0, reason := "URL uses domain name (normal)" }

/-- `SUSPICIOUS_TLDS` from `src/risk_scorer.py` lines 14–17, verbatim. -/
def SUSPICIOUS_TLDS : List String :=
  [".tk", ".ml", ".ga", ".cf", ".gq", ".xyz", ".top", ".work", ".click",
   ".link", ".country", ".stream", ".download", ".win", ".bid", ".racing"]

/-- `check_tld` from `src/risk_scorer.py` lines 137–176. -/
def check_tld (url : String) : CheckResult :=
  match pyUrlsplitNetloc url with
  | Except.error _ => { score := 0, reason := "Could not parse URL" }
  | Except.ok netloc =>
      let hostname := scorerHostname netloc
      if hostname = "" then
        { score := 0, reason := "Could not determine TLD" }
      else
        match SUSPICIOUS_TLDS.find? (fun tld => pyEndsWith hostname tld) with
        | some tld => { score := 25, reason := "URL uses suspicious TLD: " ++ tld }
        | none => { score := 0, reason := "URL uses standard TLD" }

/-- `check_port` from `src/risk_scorer.py` lines 179–218; a `ValueError`
from either `urlsplit` or the `port` accessor lands in the
`except Exception` branch. -/
def check_port (url : String) : CheckResult :=
  match pyUrlsplitNetloc url with
  | Except.error _ => { score := 0, reason := "Could not parse URL" }
  | Except.ok netloc =>
      match pyPort netloc with
      | Except.error _ => { score := 0, reason := "Could not parse URL" }
      | Except.ok none => { score := 0, reason := "URL uses default port" }
      | Except.ok (some port) =>
          if port ∈ [80, 443, 8080] then
            { score := 0, reason := "URL uses standard port " ++ toString port }
          else
            { score := 20, reason := "URL uses uncommon port " ++ toString port }

/-- The five check results, keyed as in the `checks` dict of
`calculate_rule_score` (insertion order preserved by the field order). -/
structure RuleChecks where
  url_length : CheckResult
  ip_address : CheckResult
  suspicious_keywords : CheckResult
  unusual_tld : CheckResult
  uncommon_port : CheckResult
  deriving Repr, DecidableEq

/-- The dict returned by `calculate_rule_score`. -/
structure RuleScore where
  total_score : Nat
  raw_score : Nat
  checks : RuleChecks
  deriving Repr, DecidableEq

/-- `max_possible_score` from `src/risk_scorer.py` line 245. -/
def max_possible_score : Nat := 145

/-- The normalization `min(100, int((raw_score / 145) * 100))` of
`src/risk_scorer.py` line 246.  For every raw score the five checks can
produce (a multiple of 5 in `[0, 145]`) the float expression
`(raw / 145) * 100` is at distance ≥ 1/29 from every integer unless it is
the exact float 0.0 or 100.0, far beyond double rounding error, so
`int(...)` equals the exact `⌊raw * 100 / 145⌋` used here. -/
def normalize_score (raw_score : Nat) : Nat :=
  min 100 (raw_score * 100 / max_possible_score)

/-- `calculate_rule_score` from `src/risk_scorer.py` lines 221–252. -/
def calculate_rule_score (url : String) : RuleScore :=
  let checks : RuleChecks :=
    { url_length := analyze_url_length url
      ip_address := check_ip_address url
      suspicious_keywords := detect_suspicious_keywords url
      unusual_tld := check_tld url
      uncommon_port := check_port url }
  let raw_score := checks.url_length.score + checks.ip_address.score
    + checks.suspicious_keywords.score + checks.unusual_tld.score
    + checks.uncommon_port.score
  { total_score := normalize_score raw_score
    raw_score := raw_score
    checks := checks }

/-! ## `response_parser.py`

A Safe Browsing response is a JSON dict; the parser looks only at its
truthiness and at `response.get("matches", [])`, and at the `threatType` of
each match.  `none` models a falsy response (`None` or `{}`); `some ms`
models a truthy response whose `matches` list is `ms` (a truthy response
without a `matches` key behaves as `some []`).  A match's `threatType` is
`Option String`, `none` for a missing key; Python's truthiness test on the
label also rejects the empty string. -/

structure ThreatMatch where
  threatType : Option String
  deriving Repr, DecidableEq

def ApiResponse : Type := Option (List ThreatMatch)

instance : DecidableEq ApiResponse := by
  unfold ApiResponse
  infer_instance

/-- `URLSafetyResult` from `src/response_parser.py` lines 6–37
(without the wall-clock `timestamp` field). -/
structure URLSafetyResult where
  url : String
  status : String
  threat_types : List String
  raw_response : ApiResponse
  deriving DecidableEq

/-- `dangerous_threats` from `src/response_parser.py` line 81. -/
def dangerous_threats : List String :=
  ["MALWARE", "UNWANTED_SOFTWARE", "SOCIAL_ENGINEERING"]

/-- `suspicious_threats` from `src/response_parser.py` line 82. -/
def suspicious_threats : List String :=
  ["POTENTIALLY_HARMFUL_APPLICATION"]

/-- The body of the label-collection loop of `parse_safe_browsing_response`
(lines 76–79): append a truthy `threatType` not already collected. -/
def collectStep (threat_types : List String) (m : ThreatMatch) : List String :=
  match m.threatType with
  | some t => if t ≠ "" ∧ t ∉ threat_types then threat_types ++ [t] else threat_types
  | none => threat_types

/-- The label-collection loop of `parse_safe_browsing_response`
(lines 75–79). -/
def collectThreatTypes (ms : List ThreatMatch) : List String :=
  ms.foldl collectStep []

/-- `parse_safe_browsing_response` from `src/response_parser.py`
lines 40–99. -/
def parse_safe_browsing_response (api_response : ApiResponse) (url : String) :
    URLSafetyResult :=
  match api_response with
  | none =>
      { url := url, status := "safe", threat_types := [], raw_response := none }
  | some ms =>
      if ms = [] then
        { url := url, status := "safe", threat_types := [],
          raw_response := some ms }
      else
        let threat_types := collectThreatTypes ms
        let detected_dangerous := threat_types.any (fun t => decide (t ∈ dangerous_threats))
        let detected_suspicious := threat_types.any (fun t => decide (t ∈ suspicious_threats))
        let status :=
          if detected_dangerous then "dangerous"
          else if detected_suspicious then "suspicious"
          else "suspicious"
        { url := url, status := status, threat_types := threat_types,
          raw_response := some ms }

/-! ## `score_combiner.py` -/

/-- `determine_final_verdict` from `src/score_combiner.py` lines 6–42.
`api_status` is Python's `Optional[str]`. -/
def determine_final_verdict (api_status : Option String) (rule_score : Nat)
    (api_available : Bool) : String :=
  if ¬ api_available then
    if rule_score > 60 then "dangerous"
    else if rule_score ≥ 30 then "suspicious"
    else "safe"
  else if api_status = some "dangerous" ∨ rule_score > 60 then "dangerous"
  else if api_status = some "suspicious" ∨
      (api_status = some "safe" ∧ rule_score ≥ 30) then "suspicious"
  else "safe"

/-- The verdict decision table exactly as the specification words it
(§4.3, first match wins); `none` is a lookup that is unavailable.  Written
from the spec, to be compared with `determine_final_verdict`. -/
def specVerdictTable (lookup : Option String) (total_score : Nat) : String :=
  match lookup with
  | none =>
      if total_score > 60 then "dangerous"
      else if 30 ≤ total_score ∧ total_score ≤ 60 then "suspicious"
      else "safe"
  | some c =>
      if c = "dangerous" ∨ total_score > 60 then "dangerous"
      else if c = "suspicious" ∨ (c = "safe" ∧ total_score ≥ 30) then "suspicious"
      else "safe"

/-- `generate_reasons` from `src/score_combiner.py` lines 45–80; the checks
dict is iterated in insertion order. -/
def generate_reasons (api_result : Option URLSafetyResult) (rule_score : RuleScore)
    (api_available : Bool) : List String :=
  let reasons : List String :=
    if api_available ∧ api_result.isSome then
      match api_result with
      | some r =>
          if r.threat_types ≠ [] then
            ["Google Safe Browsing detected threats: "
              ++ String.intercalate ", " r.threat_types]
          else if r.status = "safe" then
            ["Google Safe Browsing reports no known threats"]
          else []
      | none => []
    else
      ["Google Safe Browsing API unavailable - using rule-based analysis only"]
  let checks := [rule_score.checks.url_length, rule_score.checks.ip_address,
    rule_score.checks.suspicious_keywords, rule_score.checks.unusual_tld,
    rule_score.checks.uncommon_port]
  let reasons := reasons ++ (checks.filter (fun c => c.score > 0)).map (fun c => c.reason)
  if reasons = [] then ["No security concerns detected"] else reasons

/-- The `api_data` dict assembled by `combine_scores` (lines 118–122). -/
structure ApiData where
  status : Option String
  threat_types : List String
  available : Bool
  deriving DecidableEq

/-- `FinalSecurityVerdict` from `src/verdict.py`, holding the dict built by
`combine_scores` (without the wall-clock `timestamp` field). -/
structure FinalSecurityVerdict where
  url : String
  verdict : String
  api_data : ApiData
  rule_based_score : RuleScore
  reasons : List String
  deriving DecidableEq

/-- `combine_scores` from `src/score_combiner.py` lines 83–133. -/
def combine_scores (api_result : Option URLSafetyResult) (rule_score : RuleScore)
    (url : String) : FinalSecurityVerdict :=
  let api_available := api_result.isSome
  let api_status : Option String := api_result.map (fun r => r.status)
  let final_verdict :=
    determine_final_verdict api_status rule_score.total_score api_available
  let reasons := generate_reasons api_result rule_score api_available
  let api_data : ApiData :=
    { status := api_status
      threat_types := (api_result.map (fun r => r.threat_types)).getD []
      available := api_available }
  { url := url
    verdict := final_verdict
    api_data := api_data
    rule_based_score := rule_score
    reasons := reasons }

/-! ## `api_client.py` and `url_analyzer.py` -/

/-- The concrete error classes of `src/api_client.py` lines 20–37:
`APIKeyError`, `RateLimitError`, `NetworkError` and the bare base class
`SafeBrowsingAPIError`, the taxonomy `check_url_safety` can raise. -/
inductive SafeBrowsingAPIError where
  | apiKeyError
  | rateLimitError
  | networkError
  | baseError
  deriving Repr, DecidableEq

/-- `analyze_url_complete` from `src/url_analyzer.py` lines 12–57.  The
`check_url_safety` network call is modelled by its outcome `lookup`: either
the response payload it returned or the `SafeBrowsingAPIError` it raised.
The source's `try/except SafeBrowsingAPIError` catches every such error and
leaves `api_result = None`. -/
def analyze_url_complete (url : String)
    (lookup : Except SafeBrowsingAPIError ApiResponse) : FinalSecurityVerdict :=
  let api_result : Option URLSafetyResult :=
    match lookup with
    | Except.ok api_response => some (parse_safe_browsing_response api_response url)
    | Except.error _ => none
  let rule_score := calculate_rule_score url
  combine_scores api_result rule_score url

/-! ## Helper lemmas -/

lemma analyze_url_length_score_mem (url : String) :
    (analyze_url_length url).score ∈ [0, 20, 40] := by
  simp only [analyze_url_length]
  split_ifs <;> simp

lemma check_ip_address_score_mem (url : String) :
    (check_ip_address url).score ∈ [0, 30] := by
  cases h : pyUrlsplitNetloc url with
  | error u => simp [check_ip_address, h]
  | ok netloc =>
      simp only [check_ip_address, h]
      split_ifs <;> simp

lemma detect_suspicious_keywords_score_mem (url : String) :
    (detect_suspicious_keywords url).score ∈ [0, 15, 30] := by
  simp only [detect_suspicious_keywords]
  split_ifs <;> simp

lemma check_tld_score_mem (url : String) :
    (check_tld url).score ∈ [0, 25] := by
  cases h : pyUrlsplitNetloc url with
  | error u => simp [check_tld, h]
  | ok netloc =>
      simp only [check_tld, h]
      split_ifs
      · simp
      · cases SUSPICIOUS_TLDS.find? (fun tld => pyEndsWith (scorerHostname netloc) tld) <;> simp

lemma check_port_score_mem (url : String) :
    (check_port url).score ∈ [0, 20] := by
  cases h : pyUrlsplitNetloc url with
  | error u => simp [check_port, h]
  | ok netloc =>
      simp only [check_port, h]
      cases hp : pyPort netloc with
      | error u => simp
      | ok p => cases p with
        | none => simp
        | some v =>
            dsimp only
            split_ifs <;> simp

/-- The sequence of threat-category labels across the match list: one label
per match with a truthy `threatType`, in match order.  "First appearance of
a label" in claim C9 means its first position in this sequence. -/
def matchLabels (ms : List ThreatMatch) : List String :=
  ms.filterMap (fun m =>
    match m.threatType with
    | some t => if t = "" then none else some t
    | none => none)

/-- One step of a first-seen dedup fold over the label sequence. -/
def dedupStep (acc : List String) (t : String) : List String :=
  if t ∈ acc then acc else acc ++ [t]

lemma collect_foldl_eq (ms : List ThreatMatch) :
    ∀ acc : List String, ms.foldl collectStep acc = (matchLabels ms).foldl dedupStep acc := by
  induction ms with
  | nil => intro acc; rfl
  | cons m rest ih =>
      intro acc
      cases hm : m.threatType with
      | none =>
          have h1 : matchLabels (m :: rest) = matchLabels rest := by
            simp [matchLabels, List.filterMap_cons, hm]
          have h2 : collectStep acc m = acc := by simp [collectStep, hm]
          rw [List.foldl_cons, h2, h1, ih]
      | some t =>
          by_cases ht : t = ""
          · have h1 : matchLabels (m :: rest) = matchLabels rest := by
              simp [matchLabels, List.filterMap_cons, hm, ht]
            have h2 : collectStep acc m = acc := by simp [collectStep, hm, ht]
            rw [List.foldl_cons, h2, h1, ih]
          · have h1 : matchLabels (m :: rest) = t :: matchLabels rest := by
              simp [matchLabels, List.filterMap_cons, hm, ht]
            have h2 : collectStep acc m = dedupStep acc t := by
              simp only [collectStep, hm, dedupStep, ne_eq, ht, not_false_iff, true_and]
              by_cases hmem : t ∈ acc <;> simp [hmem]
            rw [List.foldl_cons, h1, List.foldl_cons, h2, ih]

lemma dedup_fold_invariant (F : List String) :
    ∀ (l L acc : List String), F = L ++ l →
      (∀ x, x ∈ acc ↔ x ∈ L) →
      List.Pairwise (fun a b => List.indexOf a F < List.indexOf b F) acc →
      ((∀ x, x ∈ l.foldl dedupStep acc ↔ x ∈ F) ∧
        List.Pairwise (fun a b => List.indexOf a F < List.indexOf b F)
          (l.foldl dedupStep acc)) := by
  intro l
  induction l with
  | nil =>
      intro L acc hF hmem hpw
      refine ⟨?_, hpw⟩
      intro x
      rw [List.foldl_nil, hmem x, hF, List.append_nil]
  | cons t rest ih =>
      intro L acc hF hmem hpw
      rw [List.foldl_cons]
      by_cases hmemt : t ∈ acc
      · have hstep : dedupStep acc t = acc := by simp [dedupStep, hmemt]
        rw [hstep]
        refine ih (L ++ [t]) acc (by rw [hF]; simp) ?_ hpw
        intro x
        rw [hmem x]
        constructor
        · intro hx
          exact List.mem_append_left _ hx
        · intro hx
          rcases List.mem_append.mp hx with hx | hx
          · exact hx
          · rw [List.mem_singleton.mp hx]
            exact (hmem t).mp hmemt
      · have hstep : dedupStep acc t = acc ++ [t] := by simp [dedupStep, hmemt]
        have htL : t ∉ L := fun h => hmemt ((hmem t).mpr h)
        have hidx_t : List.indexOf t F = L.length := by
          rw [hF, List.indexOf_append_of_not_mem htL, List.indexOf_cons_self,
            Nat.add_zero]
        have hidx_acc : ∀ a ∈ acc, List.indexOf a F < L.length := by
          intro a ha
          have haL : a ∈ L := (hmem a).mp ha
          rw [hF, List.indexOf_append_of_mem haL]
          exact List.indexOf_lt_length.mpr haL
        rw [hstep]
        refine ih (L ++ [t]) (acc ++ [t]) (by rw [hF]; simp) ?_ ?_
        · intro x
          constructor
          · intro hx
            rcases List.mem_append.mp hx with hx | hx
            · exact List.mem_append_left _ ((hmem x).mp hx)
            · exact List.mem_append_right _ hx
          · intro hx
            rcases List.mem_append.mp hx with hx | hx
            · exact List.mem_append_left _ ((hmem x).mpr hx)
            · exact List.mem_append_right _ hx
        · rw [List.pairwise_append]
          refine ⟨hpw, by simp, ?_⟩
          intro a ha b hb
          rw [List.mem_singleton.mp hb, hidx_t]
          exact hidx_acc a ha

lemma dedup_fold_spec (l : List String) :
    (∀ x, x ∈ l.foldl dedupStep [] ↔ x ∈ l) ∧
      List.Pairwise (fun a b => List.indexOf a l < List.indexOf b l)
        (l.foldl dedupStep []) :=
  dedup_fold_invariant l l [] [] rfl (fun x => by simp) List.Pairwise.nil

lemma parse_some_threat_types (ms : List ThreatMatch) (url : String) :
    (parse_safe_browsing_response (some ms) url).threat_types =
      collectThreatTypes ms := by
  by_cases h : ms = [] <;> simp [parse_safe_browsing_response, h, collectThreatTypes]

lemma parse_some_status (ms : List ThreatMatch) (url : String) (h : ms ≠ []) :
    (parse_safe_browsing_response (some ms) url).status =
      if (collectThreatTypes ms).any (fun t => decide (t ∈ dangerous_threats))
      then "dangerous" else "suspicious" := by
  simp only [parse_safe_browsing_response, if_neg h]
  split_ifs <;> rfl

lemma mem_collect_ne_nil {ms : List ThreatMatch} {url : String} {t : String}
    (ht : t ∈ (parse_safe_browsing_response (some ms) url).threat_types) :
    ms ≠ [] := by
  rintro rfl
  rw [parse_some_threat_types] at ht
  simp [collectThreatTypes] at ht

/-! ## Claim theorems -/

/-- Claim C1: the verdict combiner `determine_final_verdict`, fed a lookup
state (`none` for an unavailable lookup, in which case the combiner is called
with `api_available = lookup.isSome = false`) and any total score in
`[0, 100]`, agrees with the ordered decision table of the specification
(`specVerdictTable`), and the five quoted concrete combinations come out as
the claim lists them. -/
theorem c1_verdict_decision_table (lookup : Option String) (total_score : Nat)
    (h : total_score ≤ 100) :
    determine_final_verdict lookup total_score lookup.isSome =
      specVerdictTable lookup total_score ∧
    determine_final_verdict (some "safe") 29 true = "safe" ∧
    determine_final_verdict (some "safe") 30 true = "suspicious" ∧
    determine_final_verdict (some "safe") 61 true = "dangerous" ∧
    determine_final_verdict none 29 false = "safe" ∧
    determine_final_verdict none 61 false = "dangerous" := by
  refine ⟨?_, by decide, by decide, by decide, by decide, by decide⟩
  cases lookup with
  | none =>
      simp only [determine_final_verdict, specVerdictTable, Option.isSome_none]
      split_ifs <;> simp_all
  | some c =>
      simp only [determine_final_verdict, specVerdictTable, Option.isSome_some,
        Option.some.injEq]
      split_ifs <;> simp_all

/-- Claim C1 witness: the decision-table agreement applied at the concrete
lookup state `safe` with total score 30. -/
theorem c1_verdict_decision_table_witness :
    determine_final_verdict (some "safe") 30 (Option.isSome (some "safe")) =
      specVerdictTable (some "safe") 30 :=
  (c1_verdict_decision_table (some "safe") 30 (by decide)).1

/-- Claim C2: for every URL and every Gateway error, `analyze_url_complete`
catches the error (it returns a `FinalSecurityVerdict`, as its Lean type
already shows, because the source's `except SafeBrowsingAPIError` covers the
whole taxonomy), marks the lookup unavailable, and classifies by the
lookup-unavailable rule applied to the risk score alone. -/
theorem c2_gateway_failure_degrades_gracefully (url : String)
    (e : SafeBrowsingAPIError) :
    (analyze_url_complete url (Except.error e)).api_data.available = false ∧
    (analyze_url_complete url (Except.error e)).verdict =
      (if (calculate_rule_score url).total_score > 60 then "dangerous"
       else if (calculate_rule_score url).total_score ≥ 30 then "suspicious"
       else "safe") := by
  constructor
  · rfl
  · show determine_final_verdict none (calculate_rule_score url).total_score false = _
    simp [determine_final_verdict]

/-- Claim C3: every verdict the combiner builds (and hence every verdict
`analyze_url_complete` returns) has its `verdict` field equal to the decision
rule applied to its own `api_data.status`, `rule_based_score.total_score` and
`api_data.available` fields — the classification is never set independently
of those three. -/
theorem c3_classification_invariant (api_result : Option URLSafetyResult)
    (rule_score : RuleScore) (url url2 : String)
    (lookup : Except SafeBrowsingAPIError ApiResponse) :
    (combine_scores api_result rule_score url).verdict =
      determine_final_verdict
        (combine_scores api_result rule_score url).api_data.status
        (combine_scores api_result rule_score url).rule_based_score.total_score
        (combine_scores api_result rule_score url).api_data.available ∧
    (analyze_url_complete url2 lookup).verdict =
      determine_final_verdict
        (analyze_url_complete url2 lookup).api_data.status
        (analyze_url_complete url2 lookup).rule_based_score.total_score
        (analyze_url_complete url2 lookup).api_data.available :=
  ⟨rfl, by cases lookup <;> rfl⟩

/-- Claim C4 counterexample: the claim says that for a structurally empty
URL `analyze` raises `InvalidInputError` instead of returning a verdict.  The
source defines no `InvalidInputError` anywhere, `analyze_url_complete` has no
empty-URL check, and its `except SafeBrowsingAPIError` catches the whole
Gateway taxonomy — so on the empty URL it returns a `FinalSecurityVerdict`
(classification `safe` from the all-zero risk score), refuting the claim. -/
theorem c4_counterexample_empty_url_yields_verdict :
    (analyze_url_complete "" (Except.error SafeBrowsingAPIError.apiKeyError)).verdict
      = "safe" := by
  rfl

/-- Claim C4 (amended): `analyze_url_complete` does not treat the empty URL
specially and never raises at all (its Lean type is total because the
source catches every Gateway error and nothing else in it can raise): for
the empty URL with the lookup failing with any Gateway error it returns a
`FinalSecurityVerdict` with the lookup marked unavailable, total score 0 and
classification `safe`. -/
theorem c4_empty_url_no_special_handling (e : SafeBrowsingAPIError) :
    (analyze_url_complete "" (Except.error e)).verdict = "safe" ∧
    (analyze_url_complete "" (Except.error e)).api_data.available = false ∧
    (analyze_url_complete "" (Except.error e)).rule_based_score.total_score = 0 :=
  ⟨rfl, rfl, rfl⟩

/-- Claim C5, evaluated at the failing input: the URL
`http://verifybank.com` contains exactly two distinct keywords of the fixed
list (`verify` and `bank`), yet `detect_suspicious_keywords` scores it 30,
not the 15 the claim (and the docstring of the function: 1–2 keywords →
15 points) prescribes, because the entry `verify` occurs twice in
`SUSPICIOUS_KEYWORDS` and the loop counts it once per list entry.  The
claim's own quoted example is also checked: `http://192.168.1.1/secure-login`
scores 15 (matching `secure` and `login`), with the reason listing the
matched keywords (at most 5 of them). -/
theorem c5_keyword_check_at_failing_input :
    (SUSPICIOUS_KEYWORDS.dedup.filter
        (fun k => pyIn k (pyLower "http://verifybank.com"))).length = 2 ∧
    found_keywords "http://verifybank.com" = ["verify", "bank", "verify"] ∧
    (detect_suspicious_keywords "http://verifybank.com").score = 30 ∧
    (detect_suspicious_keywords "http://192.168.1.1/secure-login").score = 15 ∧
    (detect_suspicious_keywords "http://192.168.1.1/secure-login").reason =
      "Contains suspicious keywords: " ++ String.intercalate ", " ["secure", "login"] ∧
    ((found_keywords "http://verifybank.com").take 5).length ≤ 5 := by
  refine ⟨by decide, by decide, by rfl, by rfl, by decide, by decide⟩

/-- Claim C7: for every URL the scorer's `raw_score` is the sum of the five
check scores, `total_score` is `min 100 ⌊raw * 100 / 145⌋`, the denominator
`max_possible_score = 145` is the sum of the five per-check maxima
(each check's score ranges over the listed finite set, with maxima
40, 30, 30, 25, 20), and `total_score` is in `[0, 100]`. -/
theorem c7_raw_and_normalized_score (url : String) :
    (calculate_rule_score url).raw_score =
      (analyze_url_length url).score + (check_ip_address url).score
        + (detect_suspicious_keywords url).score + (check_tld url).score
        + (check_port url).score ∧
    (calculate_rule_score url).total_score =
      min 100 ((calculate_rule_score url).raw_score * 100 / max_possible_score) ∧
    max_possible_score = 40 + 30 + 30 + 25 + 20 ∧
    (analyze_url_length url).score ∈ [0, 20, 40] ∧
    (check_ip_address url).score ∈ [0, 30] ∧
    (detect_suspicious_keywords url).score ∈ [0, 15, 30] ∧
    (check_tld url).score ∈ [0, 25] ∧
    (check_port url).score ∈ [0, 20] ∧
    (calculate_rule_score url).total_score ≤ 100 :=
  ⟨rfl, rfl, rfl, analyze_url_length_score_mem url, check_ip_address_score_mem url,
   detect_suspicious_keywords_score_mem url, check_tld_score_mem url,
   check_port_score_mem url, Nat.min_le_left _ _⟩

/-- Claim C6: classification of a successful lookup response.  An absent or
empty match set yields `safe`; a collected label in the high-severity set
forces `dangerous`; otherwise a label in the medium-severity set gives
`suspicious`; and labels recognized by neither set still give `suspicious`,
never `safe`. -/
theorem c6_lookup_classification (ms : List ThreatMatch) (url : String) :
    (parse_safe_browsing_response none url).status = "safe" ∧
    (parse_safe_browsing_response (some []) url).status = "safe" ∧
    ((∃ t ∈ (parse_safe_browsing_response (some ms) url).threat_types,
        t ∈ dangerous_threats) →
      (parse_safe_browsing_response (some ms) url).status = "dangerous") ∧
    ((∀ t ∈ (parse_safe_browsing_response (some ms) url).threat_types,
        t ∉ dangerous_threats) →
      (∃ t ∈ (parse_safe_browsing_response (some ms) url).threat_types,
        t ∈ suspicious_threats) →
      (parse_safe_browsing_response (some ms) url).status = "suspicious") ∧
    ((parse_safe_browsing_response (some ms) url).threat_types ≠ [] →
      (∀ t ∈ (parse_safe_browsing_response (some ms) url).threat_types,
        t ∉ dangerous_threats ∧ t ∉ suspicious_threats) →
      (parse_safe_browsing_response (some ms) url).status = "suspicious") := by
  refine ⟨rfl, rfl, ?_, ?_, ?_⟩
  · rintro ⟨t, ht, htd⟩
    have hms : ms ≠ [] := mem_collect_ne_nil ht
    rw [parse_some_threat_types] at ht
    rw [parse_some_status ms url hms, if_pos]
    rw [List.any_eq_true]
    exact ⟨t, ht, by simpa using htd⟩
  · rintro hall ⟨t, ht, hts⟩
    have hms : ms ≠ [] := mem_collect_ne_nil ht
    rw [parse_some_threat_types] at hall ht
    rw [parse_some_status ms url hms, if_neg]
    intro hany
    rw [List.any_eq_true] at hany
    obtain ⟨x, hx, hxd⟩ := hany
    exact hall x hx (by simpa using hxd)
  · intro hne hall
    have hms : ms ≠ [] := by
      intro h
      rw [parse_some_threat_types, h] at hne
      simp [collectThreatTypes] at hne
    rw [parse_some_threat_types] at hall
    rw [parse_some_status ms url hms, if_neg]
    intro hany
    rw [List.any_eq_true] at hany
    obtain ⟨x, hx, hxd⟩ := hany
    exact (hall x hx).1 (by simpa using hxd)

/-- Claim C6 witness: the classification rules applied at one-match
responses carrying a high-severity, a medium-severity and an unrecognized
label respectively. -/
theorem c6_lookup_classification_witness :
    (parse_safe_browsing_response (some [⟨some "MALWARE"⟩]) "u").status = "dangerous" ∧
    (parse_safe_browsing_response
        (some [⟨some "POTENTIALLY_HARMFUL_APPLICATION"⟩]) "u").status = "suspicious" ∧
    (parse_safe_browsing_response (some [⟨some "NEW_THREAT"⟩]) "u").status = "suspicious" :=
  ⟨(c6_lookup_classification [⟨some "MALWARE"⟩] "u").2.2.1 (by decide),
   (c6_lookup_classification [⟨some "POTENTIALLY_HARMFUL_APPLICATION"⟩] "u").2.2.2.1
     (by decide) (by decide),
   (c6_lookup_classification [⟨some "NEW_THREAT"⟩] "u").2.2.2.2 (by decide) (by decide)⟩

/-- Claim C9: the `threat_types` list of a parsed response contains each
distinct label of the match list exactly once (it has no duplicates and
holds exactly the labels appearing across the matches), ordered by the first
appearance of each label across the match list (`matchLabels ms` is the
label sequence; `List.indexOf` in it is the position of a label's first
appearance). -/
theorem c9_threat_categories_dedup_first_seen (ms : List ThreatMatch) (url : String) :
    (parse_safe_browsing_response (some ms) url).threat_types.Nodup ∧
    (∀ t, t ∈ (parse_safe_browsing_response (some ms) url).threat_types ↔
      t ∈ matchLabels ms) ∧
    List.Pairwise
      (fun a b => List.indexOf a (matchLabels ms) < List.indexOf b (matchLabels ms))
      (parse_safe_browsing_response (some ms) url).threat_types := by
  have h1 : (parse_safe_browsing_response (some ms) url).threat_types
      = (matchLabels ms).foldl dedupStep [] := by
    rw [parse_some_threat_types]
    exact collect_foldl_eq ms []
  obtain ⟨hmem, hpw⟩ := dedup_fold_spec (matchLabels ms)
  rw [h1]
  refine ⟨?_, hmem, hpw⟩
  refine hpw.imp ?_
  intro a b hab hEq
  rw [hEq] at hab
  exact lt_irrefl _ hab

/-- Claim C9 witness: the dedup-and-order property applied at a concrete
three-match response with a duplicated label. -/
theorem c9_threat_categories_dedup_first_seen_witness :
    (parse_safe_browsing_response
        (some [⟨some "MALWARE"⟩, ⟨some "SOCIAL_ENGINEERING"⟩, ⟨some "MALWARE"⟩])
        "u").threat_types.Nodup ∧
    "SOCIAL_ENGINEERING" ∈ (parse_safe_browsing_response
        (some [⟨some "MALWARE"⟩, ⟨some "SOCIAL_ENGINEERING"⟩, ⟨some "MALWARE"⟩])
        "u").threat_types :=
  ⟨(c9_threat_categories_dedup_first_seen
      [⟨some "MALWARE"⟩, ⟨some "SOCIAL_ENGINEERING"⟩, ⟨some "MALWARE"⟩] "u").1,
   ((c9_threat_categories_dedup_first_seen
      [⟨some "MALWARE"⟩, ⟨some "SOCIAL_ENGINEERING"⟩, ⟨some "MALWARE"⟩] "u").2.1
      "SOCIAL_ENGINEERING").mpr (by decide)⟩

/-- Claim C10: the parsed result is `safe` exactly when the response is
falsy or its match list is empty; a non-empty match list — even one whose
collected label list is empty — yields `suspicious`, never `safe`; and a
`safe` status always comes with an empty `threat_categories` list. -/
theorem c10_safe_iff_no_matches (resp : Option (List ThreatMatch))
    (ms : List ThreatMatch) (url : String) :
    ((parse_safe_browsing_response resp url).status = "safe" ↔
      resp = none ∨ resp = some []) ∧
    ((parse_safe_browsing_response resp url).status = "safe" →
      (parse_safe_browsing_response resp url).threat_types = []) ∧
    (ms ≠ [] → (parse_safe_browsing_response (some ms) url).threat_types = [] →
      (parse_safe_browsing_response (some ms) url).status = "suspicious") := by
  refine ⟨?_, ?_, ?_⟩
  · cases resp with
    | none => simp [parse_safe_browsing_response]
    | some ms2 =>
        by_cases h : ms2 = []
        · subst h
          simp [parse_safe_browsing_response]
        · rw [parse_some_status ms2 url h]
          constructor
          · intro hs
            exfalso
            revert hs
            split_ifs <;> decide
          · rintro (h2 | h2) <;> simp_all
  · cases resp with
    | none => intro hs; rfl
    | some ms2 =>
        by_cases h : ms2 = []
        · subst h
          intro hs
          rfl
        · rw [parse_some_status ms2 url h]
          intro hs
          exfalso
          revert hs
          split_ifs <;> decide
  · intro hne htt
    rw [parse_some_threat_types] at htt
    rw [parse_some_status ms url hne, if_neg]
    rw [htt]
    decide

/-- Claim C10 witness: a one-match response whose match carries no
threat-category label is classified `suspicious`. -/
theorem c10_safe_iff_no_matches_witness :
    (parse_safe_browsing_response (some [⟨none⟩]) "u").status = "suspicious" :=
  (c10_safe_iff_no_matches (some [⟨none⟩]) [⟨none⟩] "u").2.2 (by decide) (by rfl)

/-- Claim C8: the normalized total is monotonically non-decreasing in each
check's contribution: for two assignments of the five per-check scores, each
drawn from its check's possible value set, with the first assignment at least
the second componentwise (in particular when they agree on four checks), the
normalized total of the first is at least that of the second. -/
theorem c8_total_score_monotone (l ip kw tld port l2 ip2 kw2 tld2 port2 : Nat)
    (hl : l ∈ [0, 20, 40]) (hip : ip ∈ [0, 30]) (hkw : kw ∈ [0, 15, 30])
    (htld : tld ∈ [0, 25]) (hport : port ∈ [0, 20])
    (hl2 : l2 ∈ [0, 20, 40]) (hip2 : ip2 ∈ [0, 30]) (hkw2 : kw2 ∈ [0, 15, 30])
    (htld2 : tld2 ∈ [0, 25]) (hport2 : port2 ∈ [0, 20])
    (h1 : l2 ≤ l) (h2 : ip2 ≤ ip) (h3 : kw2 ≤ kw) (h4 : tld2 ≤ tld)
    (h5 : port2 ≤ port) :
    normalize_score (l2 + ip2 + kw2 + tld2 + port2) ≤
      normalize_score (l + ip + kw + tld + port) := by
  unfold normalize_score
  exact min_le_min le_rfl (Nat.div_le_div_right (Nat.mul_le_mul_right _ (by omega)))

/-- Claim C8 witness: the monotonicity applied at two concrete assignments
that agree except on the length check. -/
theorem c8_total_score_monotone_witness :
    normalize_score (0 + 30 + 15 + 25 + 20) ≤ normalize_score (20 + 30 + 15 + 25 + 20) :=
  c8_total_score_monotone 20 30 15 25 20 0 30 15 25 20
    (by decide) (by decide) (by decide) (by decide) (by decide)
    (by decide) (by decide) (by decide) (by decide) (by decide)
    (by decide) (by decide) (by decide) (by decide) (by decide)

end LinkSafety
